import Mathlib

/-!
Shallow embedding of `src/bentoml_comfyui/cli.py` (the `bentoml comfyui`
CLI: a `pack` subcommand and a `build` subcommand), together with proofs
about the embedded definitions.

The filesystem is modelled as a boolean existence predicate on path
strings.  The external delegates (`pack_model`, `get_requirements`,
`bentoml.build`, `bentoml.push`) are parameters of the embedded commands:
the claims under study only concern what this CLI passes to them and what
it does with their results.  Console output, file writes and delegate
calls are recorded in an event trace.
-/

/-- Boolean test that `pat` occurs at the start of `s` (on character lists). -/
def charsStartWith : List Char → List Char → Bool
  | [], _ => true
  | _ :: _, [] => false
  | a :: as, b :: bs => a == b && charsStartWith as bs

/-- Boolean test that `pat` occurs somewhere inside `s` (on character lists). -/
def charsContain (pat : List Char) : List Char → Bool
  | [] => pat.isEmpty
  | c :: cs => charsStartWith pat (c :: cs) || charsContain pat cs

/-- Boolean substring test on strings: `hasSubstring pat s` holds when `pat`
occurs contiguously inside `s`. -/
def hasSubstring (pat s : String) : Bool :=
  charsContain pat.data s.data

theorem charsStartWith_self_append (pat rest : List Char) :
    charsStartWith pat (pat ++ rest) = true := by
  induction pat with
  | nil => rfl
  | cons a as ih => simp [charsStartWith, ih]

theorem charsContain_append_middle (a pat b : List Char) :
    charsContain pat (a ++ (pat ++ b)) = true := by
  induction a with
  | nil =>
      cases pat with
      | nil => cases b with
        | nil => rfl
        | cons c cs => simp [charsContain, charsStartWith]
      | cons p ps =>
          have h := charsStartWith_self_append (p :: ps) b
          simp [charsContain]
          exact Or.inl (by simpa [charsStartWith] using h)
  | cons c cs ih =>
      simp [charsContain, ih]

/-- A string is a substring of any string that surrounds it. -/
theorem hasSubstring_append (a pat b : String) :
    hasSubstring pat (a ++ pat ++ b) = true := by
  have h : (a ++ pat ++ b).data = a.data ++ (pat.data ++ b.data) := by
    simp [String.data_append]
  simp [hasSubstring, h, charsContain_append_middle]

/-- Model of Python `repr` for the plain path strings occurring here
(`f"{workspace!r}"`): the string wrapped in single quotes. -/
def pyRepr (s : String) : String := "'" ++ s ++ "'"

/-- Model of `pathlib.Path(workspace, fingerprint)` on POSIX paths. -/
def pathJoin (a b : String) : String := a ++ "/" ++ b

/-- The three marker sub-entries `_check_comfyui_workspace` looks for
(`comfy_fingerprints` in `cli.py`). -/
def comfy_fingerprints : List String := ["comfy", "comfy_execution", "comfy_extras"]

/-- The `InvalidArgument` message raised by `_check_comfyui_workspace`:
`f"{workspace!r} does not look like a ComfyUI workspace. Please give a correct path."` -/
def workspaceErrMsg (workspace : String) : String :=
  pyRepr workspace ++ " does not look like a ComfyUI workspace. Please give a correct path."

/-- The `for fingerprint in comfy_fingerprints` loop of
`_check_comfyui_workspace`: raise on the first missing marker. -/
def checkLoop (fsExists : String → Bool) (workspace : String) :
    List String → Except String Unit
  | [] => Except.ok ()
  | fp :: rest =>
      if fsExists (pathJoin workspace fp) then checkLoop fsExists workspace rest
      else Except.error (workspaceErrMsg workspace)

/-- Embedding of `_check_comfyui_workspace` from `cli.py`: checks that each
of the three fingerprint sub-paths exists under `workspace`, raising
`InvalidArgument` (modelled as `Except.error`) at the first missing one.
The embedding is a pure function of the filesystem predicate: the
passing branch produces no output, writes and calls of any kind. -/
def _check_comfyui_workspace (fsExists : String → Bool) (workspace : String) :
    Except String Unit :=
  checkLoop fsExists workspace comfy_fingerprints

/-- The name the `pack` command passes to `pack_model`: Python
`if version: name = f"{name}:{version}"` — the version is appended only
when it is a truthy (present and non-empty) string. -/
def packName (name : String) (version : Option String) : String :=
  match version with
  | none => name
  | some v => if v.isEmpty then name else name ++ ":" ++ v

/-- Events produced by the embedded `pack` command. -/
inductive PEv where
  | packCalled : String → String → PEv
  | printed : String → PEv
deriving DecidableEq

/-- The first `rich.print` of `pack` (an f-string mentioning the workspace
repr and the returned tag). -/
def packSuccessMsg (workspace tag : String) : String :=
  "✅ [green]Successfully packed ComfyUI workspace " ++ pyRepr workspace ++
    " to BentoML model " ++ tag ++ "[/]"

/-- The second `rich.print` of `pack`.  In the source this string is NOT an
f-string, so the two occurrences of `\x7btag\x7d` are literal characters. -/
def packHint : String :=
  "[blue]Next step, build a bento with the workspace:\n" ++
    "    $ bentoml comfyui build --model \x7btag\x7d\n" ++
    "Or, build and push to the cloud in one go:\n" ++
    "    $ bentoml comfyui build --push --model \x7btag\x7d[/]"

/-- Embedding of the `pack` command: validate the workspace, compute the
name (with optional version suffix), call the external `pack_model`
delegate, then print the confirmation and the follow-up hint. -/
def packCmd (fsExists : String → Bool) (packModel : String → String → String)
    (name : String) (version : Option String) (workspace : String) :
    Except String String × List PEv :=
  match _check_comfyui_workspace fsExists workspace with
  | Except.error e => (Except.error e, [])
  | Except.ok _ =>
      let n := packName name version
      let tag := packModel n workspace
      (Except.ok tag,
        [PEv.packCalled n workspace,
         PEv.printed (packSuccessMsg workspace tag),
         PEv.printed packHint])

/-- The keyword arguments `build` passes to `bentoml.build`. -/
structure BuildArgs where
  service : String
  name : String
  version : Option String
  systemPackages : List String
  requirementsTxt : String
  lockPackages : Bool
  includeFiles : List String
deriving DecidableEq

/-- The fixed Docker system packages listed in the `docker=` argument of
`bentoml.build` in `cli.py`, before the user-supplied additions. -/
def defaultSystemPackages : List String :=
  ["git", "libglib2.0-0", "libsm6", "libxrender1", "libxext6", "ffmpeg",
   "libstdc++-12-dev"]

/-- The `bentoml.build` arguments computed by the `build` command. -/
def buildArgsOf (name : String) (version : Option String)
    (systemPackages : List String) : BuildArgs :=
  { service := "service:ComfyUIService"
    name := name
    version := version
    systemPackages := defaultSystemPackages ++ systemPackages
    requirementsTxt := "requirements.txt"
    lockPackages := true
    includeFiles := ["service.py", "workflow.json", "requirements.txt"] }

/-- Content of the generated `requirements.txt`: the `f.write` of the base
requirements followed by the `for package in extra_python_packages` loop,
each iteration writing `f"\n\x7bpackage\x7d"`. -/
def requirementsContent (base : String) (extras : List String) : String :=
  extras.foldl (fun acc p => acc ++ ("\n" ++ p)) base

/-- Modelled from the spec: the packaged template file `_service.tpl` read
by `read_text(__package__, "_service.tpl")` is not among the sources.  Per
the spec it is a fixed service-source template into which the service name
and the model tag are substituted (`service_template.format(name=name,
model_tag=model)`); it is modelled as a fixed text with one occurrence of
each placeholder.  Fragment before the `name` placeholder. -/
def svcTplPre : String := "import bentoml\n\n@bentoml.service(name=\""

/-- Modelled from the spec: fragment of `_service.tpl` between the `name`
and `model_tag` placeholders. -/
def svcTplMid : String := "\")\nclass ComfyUIService:\n    model = bentoml.models.get(\""

/-- Modelled from the spec: fragment of `_service.tpl` after the
`model_tag` placeholder. -/
def svcTplPost : String := "\")\n"

/-- `service_template.format(name=name, model_tag=model)`: the fixed
template with the two placeholders replaced by the option values. -/
def serviceTemplateRender (name modelTag : String) : String :=
  svcTplPre ++ name ++ svcTplMid ++ modelTag ++ svcTplPost

/-- Events produced by the embedded `build` command. -/
inductive Ev where
  | tempCreated : Ev
  | printed : String → Ev
  | fileWritten : String → String → Ev
  | buildCalled : BuildArgs → Ev
  | tempRemoved : Ev
  | pushCalled : String → Ev
deriving DecidableEq

/-- The success message `build` prints after the `with` block exits. -/
def buildSuccessMsg (tag workflow : String) : String :=
  "✅ [green]Successfully built Bento " ++ tag ++ " from ComfyUI workflow " ++
    pyRepr workflow ++ "[/]"

/-- The joined `next_steps` hint printed after a push. -/
def deployHints (tag : String) : String :=
  "[blue]Next steps:" ++
    "\n\n* Deploy to BentoCloud:\n    $ bentoml deploy " ++ tag ++
      " -n $\x7bDEPLOYMENT_NAME\x7d" ++
    "\n\n* Update an existing deployment on BentoCloud:\n" ++
      "    $ bentoml deployment update --bento " ++ tag ++
      " $\x7bDEPLOYMENT_NAME\x7d[/]"

/-- The events of the `build` command that happen inside the
`with tempfile.TemporaryDirectory()` block, in program order: the three
"Creating …" prints interleaved with the three file writes, then the call
into `bentoml.build`. -/
def buildCommonTrace (base wfContent name : String) (version : Option String)
    (model : String) (systemPackages extraPythonPackages : List String) :
    List Ev :=
  [Ev.tempCreated,
   Ev.printed "📂 [blue]Creating requirements.txt[/]",
   Ev.fileWritten "requirements.txt" (requirementsContent base extraPythonPackages),
   Ev.printed "📂 [blue]Creating service.py[/]",
   Ev.fileWritten "service.py" (serviceTemplateRender name model),
   Ev.printed "📂 [blue]Creating workflow.json[/]",
   Ev.fileWritten "workflow.json" wfContent,
   Ev.buildCalled (buildArgsOf name version systemPackages)]

/-- Embedding of the `build` command of `cli.py`.  `base` is the result of
the external `get_requirements(python)`, `wfContent` the content of the
user's workflow file (copied verbatim by `shutil.copy2`), and `buildFn`
the external `bentoml.build`, which may raise (`Except.error`).  The
`with tempfile.TemporaryDirectory()` block creates the temporary directory,
the generated files and the `bentoml.build` call happen inside it, and the
directory is removed when the block exits — also when `buildFn` raises, in
which case the error then propagates and nothing further runs. -/
def buildCmd (base wfContent : String) (buildFn : BuildArgs → Except String String)
    (name : String) (version : Option String) (model : String)
    (systemPackages extraPythonPackages : List String) (push : Bool)
    (workflow : String) : Except String String × List Ev :=
  let args := buildArgsOf name version systemPackages
  let inTemp : List Ev :=
    buildCommonTrace base wfContent name version model systemPackages
      extraPythonPackages
  match buildFn args with
  | Except.error e => (Except.error e, inTemp ++ [Ev.tempRemoved])
  | Except.ok tag =>
      let afterBuild := inTemp ++ [Ev.tempRemoved, Ev.printed (buildSuccessMsg tag workflow)]
      if push then
        (Except.ok tag, afterBuild ++ [Ev.pushCalled tag, Ev.printed (deployHints tag)])
      else
        (Except.ok tag, afterBuild)

/-- Whether the temporary directory is alive while an event executes
(and, for the create/remove events themselves, just after them). -/
def tempStep (alive : Bool) (e : Ev) : Bool :=
  match e with
  | Ev.tempCreated => true
  | Ev.tempRemoved => false
  | _ => alive

/-- Whether the temporary directory still exists once the whole trace has
run. -/
def tempAliveAfter (tr : List Ev) : Bool := tr.foldl tempStep false

/-- Pair each event of a trace with the liveness of the temporary
directory at that event. -/
def annotateTemp (alive : Bool) : List Ev → List (Ev × Bool)
  | [] => []
  | e :: rest => (e, tempStep alive e) :: annotateTemp (tempStep alive e) rest

/-- Holds when an annotated event is consistent with the temporary
directory being alive during every file write and during the external
build call. -/
def writesInsideTemp (eb : Ev × Bool) : Bool :=
  match eb.1 with
  | Ev.fileWritten _ _ => eb.2
  | Ev.buildCalled _ => eb.2
  | _ => true

/-- Holds when an event is not a call into `bentoml.push`. -/
def notPushCall (e : Ev) : Bool :=
  match e with
  | Ev.pushCalled _ => false
  | _ => true

/-- Holds when an event is a `tempCreated` event. -/
def isTempCreated (e : Ev) : Bool :=
  match e with
  | Ev.tempCreated => true
  | _ => false

/-- Holds when an event is a `tempRemoved` event. -/
def isTempRemoved (e : Ev) : Bool :=
  match e with
  | Ev.tempRemoved => true
  | _ => false

/-- Holds when an event is not a write of `requirements.txt` with a content
other than `content`. -/
def reqWriteIs (content : String) (e : Ev) : Bool :=
  match e with
  | Ev.fileWritten f c => !(f == "requirements.txt") || (c == content)
  | _ => true

/-- Holds when an event is not a call into `bentoml.build` with arguments
other than `a0`. -/
def buildCallUses (a0 : BuildArgs) (e : Ev) : Bool :=
  match e with
  | Ev.buildCalled a => a == a0
  | _ => true

/-- The requirements content the spec describes: each extra package entry
in the supplied order, each on its own new line. -/
def newlineBlock : List String → String
  | [] => ""
  | p :: ps => "\n" ++ p ++ newlineBlock ps

theorem hasSubstring_of_parts (pat s : String) (a b : List Char)
    (h : s.data = a ++ (pat.data ++ b)) : hasSubstring pat s = true := by
  simp [hasSubstring, h, charsContain_append_middle]

theorem requirementsContent_eq (base : String) (extras : List String) :
    requirementsContent base extras = base ++ newlineBlock extras := by
  induction extras generalizing base with
  | nil => simp [requirementsContent, newlineBlock]
  | cons p ps ih =>
      have h : requirementsContent base (p :: ps) =
          requirementsContent (base ++ ("\n" ++ p)) ps := rfl
      rw [h, ih, newlineBlock]
      simp [String.append_assoc]

theorem checkLoop_error_msg (fsExists : String → Bool) (workspace msg : String)
    (fps : List String) (h : checkLoop fsExists workspace fps = Except.error msg) :
    msg = workspaceErrMsg workspace := by
  induction fps with
  | nil => simp [checkLoop] at h
  | cons fp rest ih =>
      rw [checkLoop] at h
      split at h
      · exact ih h
      · exact (Except.error.inj h).symm

/-- C1: for every workspace directory, `_check_comfyui_workspace` raises an
invalid-argument error if and only if at least one of the three marker
subpaths is missing from the directory; when all three markers are present
it returns normally (and, being a pure function of the filesystem
predicate, performs no side effects). -/
theorem check_workspace_error_iff (fsExists : String → Bool) (workspace : String) :
    (_check_comfyui_workspace fsExists workspace = Except.ok () ↔
      ∀ fp ∈ comfy_fingerprints, fsExists (pathJoin workspace fp) = true) ∧
    ((∃ msg, _check_comfyui_workspace fsExists workspace = Except.error msg) ↔
      ∃ fp ∈ comfy_fingerprints, fsExists (pathJoin workspace fp) = false) := by
  cases h1 : fsExists (pathJoin workspace "comfy") <;>
    cases h2 : fsExists (pathJoin workspace "comfy_execution") <;>
      cases h3 : fsExists (pathJoin workspace "comfy_extras") <;>
        simp [_check_comfyui_workspace, checkLoop, comfy_fingerprints, h1, h2, h3]

/-- Witness for C1 at a concrete input: a filesystem containing every path
passes the validator. -/
theorem check_workspace_error_iff_witness :
    _check_comfyui_workspace (fun _ => true) "ws" = Except.ok () :=
  (check_workspace_error_iff (fun _ => true) "ws").1.mpr (by decide)

/-- C2 (counterexample): on a workspace `"ws"` whose only missing marker is
`comfy_execution`, the validator raises, but its message does not mention
the offending marker subpath `comfy_execution` anywhere — it only names the
workspace. -/
theorem check_errmsg_counterexample :
    _check_comfyui_workspace (fun p => !(p == "ws/comfy_execution")) "ws" =
      Except.error
        "'ws' does not look like a ComfyUI workspace. Please give a correct path." ∧
    ((fun p => !(p == "ws/comfy_execution") : String → Bool)
        (pathJoin "ws" "comfy") = true) ∧
    ((fun p => !(p == "ws/comfy_execution") : String → Bool)
        (pathJoin "ws" "comfy_extras") = true) ∧
    hasSubstring "comfy_execution"
      "'ws' does not look like a ComfyUI workspace. Please give a correct path."
      = false :=
  ⟨rfl, rfl, rfl, by decide⟩

/-- C2 (amended): whenever the workspace validator fails, the
invalid-argument error carries the fixed descriptive message naming the
offending workspace path (its repr); the message does not name the specific
missing marker subpath. -/
theorem check_errmsg_names_workspace (fsExists : String → Bool)
    (workspace msg : String)
    (h : _check_comfyui_workspace fsExists workspace = Except.error msg) :
    msg = workspaceErrMsg workspace ∧
      hasSubstring (pyRepr workspace) msg = true := by
  have hm := checkLoop_error_msg fsExists workspace msg comfy_fingerprints h
  refine ⟨hm, ?_⟩
  rw [hm]
  apply hasSubstring_of_parts _ _ []
    (" does not look like a ComfyUI workspace. Please give a correct path.").data
  simp [workspaceErrMsg, String.data_append]

/-- Witness for C2 (amended) at a concrete input: an empty filesystem makes
the validator fail with the message naming the workspace `"ws"`. -/
theorem check_errmsg_names_workspace_witness :
    workspaceErrMsg "ws" = workspaceErrMsg "ws" ∧
      hasSubstring (pyRepr "ws") (workspaceErrMsg "ws") = true :=
  check_errmsg_names_workspace (fun _ => false) "ws" (workspaceErrMsg "ws") rfl

/-- C3: for every pack invocation on a valid workspace, with `--version`
supplied (a non-empty string) the name passed to the packer — and hence the
resulting tag — equals `name:version`; with `--version` omitted the name
passed is `name` alone, with no version part. -/
theorem pack_version_in_name (fsExists : String → Bool)
    (packModel : String → String → String) (name workspace v : String)
    (hv : v ≠ "")
    (hc : _check_comfyui_workspace fsExists workspace = Except.ok ()) :
    (packCmd fsExists packModel name (some v) workspace).2.head? =
        some (PEv.packCalled (name ++ ":" ++ v) workspace) ∧
    (packCmd fsExists packModel name (some v) workspace).1 =
        Except.ok (packModel (name ++ ":" ++ v) workspace) ∧
    (packCmd fsExists packModel name none workspace).2.head? =
        some (PEv.packCalled name workspace) ∧
    (packCmd fsExists packModel name none workspace).1 =
        Except.ok (packModel name workspace) := by
  have hve : v.isEmpty = false := by
    cases hb : v.isEmpty
    · rfl
    · exact absurd ((String.isEmpty_iff v).mp hb) hv
  simp [packCmd, hc, packName, hve]

/-- Witness for C3 at a concrete input. -/
theorem pack_version_in_name_witness :
    (packCmd (fun _ => true) (fun n _ => n) "comfyui" (some "1.0") "ws").2.head? =
        some (PEv.packCalled ("comfyui" ++ ":" ++ "1.0") "ws") ∧
    (packCmd (fun _ => true) (fun n _ => n) "comfyui" (some "1.0") "ws").1 =
        Except.ok ("comfyui" ++ ":" ++ "1.0") ∧
    (packCmd (fun _ => true) (fun n _ => n) "comfyui" none "ws").2.head? =
        some (PEv.packCalled "comfyui" "ws") ∧
    (packCmd (fun _ => true) (fun n _ => n) "comfyui" none "ws").1 =
        Except.ok "comfyui" :=
  pack_version_in_name (fun _ => true) (fun n _ => n) "comfyui" "ws" "1.0"
    (by decide) rfl

/-- C9: a pack invocation with `--version` given as the empty string is
treated exactly as if the version were omitted: the whole command behaves
identically, and the name passed to the packer is `name` with no `:`
suffix, because `if version:` tests truthiness rather than presence. -/
theorem pack_empty_version_as_omitted (fsExists : String → Bool)
    (packModel : String → String → String) (name workspace : String) :
    packCmd fsExists packModel name (some "") workspace =
        packCmd fsExists packModel name none workspace ∧
    packName name (some "") = name :=
  ⟨rfl, rfl⟩

/-- C8: after a successful pack, the follow-up hint printed is the fixed
string `packHint`, which contains the literal characters `\x7btag\x7d`
rather than the returned tag (the source string is not an f-string); the
actual tag value appears in the first confirmation line. -/
theorem pack_hint_literal_tag (fsExists : String → Bool)
    (packModel : String → String → String) (name : String)
    (version : Option String) (workspace tag : String)
    (h : (packCmd fsExists packModel name version workspace).1 = Except.ok tag) :
    (packCmd fsExists packModel name version workspace).2 =
      [PEv.packCalled (packName name version) workspace,
       PEv.printed (packSuccessMsg workspace tag),
       PEv.printed packHint] ∧
    hasSubstring "\x7btag\x7d" packHint = true ∧
    hasSubstring tag (packSuccessMsg workspace tag) = true := by
  cases hc : _check_comfyui_workspace fsExists workspace with
  | error e => simp [packCmd, hc] at h
  | ok u =>
      cases u
      have htag : tag = packModel (packName name version) workspace := by
        simp [packCmd, hc] at h
        exact h.symm
      refine ⟨by simp [packCmd, hc, htag], by decide, ?_⟩
      apply hasSubstring_of_parts tag (packSuccessMsg workspace tag)
        (("✅ [green]Successfully packed ComfyUI workspace " ++ pyRepr workspace ++
          " to BentoML model ").data) ("[/]".data)
      simp [packSuccessMsg, String.data_append, List.append_assoc]

/-- Witness for C8 at a concrete input. -/
theorem pack_hint_literal_tag_witness :
    (packCmd (fun _ => true) (fun _ _ => "mytag") "comfyui" none "ws").2 =
      [PEv.packCalled (packName "comfyui" none) "ws",
       PEv.printed (packSuccessMsg "ws" "mytag"),
       PEv.printed packHint] ∧
    hasSubstring "\x7btag\x7d" packHint = true ∧
    hasSubstring "mytag" (packSuccessMsg "ws" "mytag") = true :=
  pack_hint_literal_tag (fun _ => true) (fun _ _ => "mytag") "comfyui" none "ws"
    "mytag" rfl

/-- C4: for every build invocation, the temporary build directory is alive
at every generated-file write and during the external build call, is
created exactly once and removed exactly once, and no longer exists when
the command returns — on both exit paths (external build success and
external build failure), with or without `--push`. -/
theorem build_tempdir_scoped (base wfContent : String)
    (buildFn : BuildArgs → Except String String) (name : String)
    (version : Option String) (model : String)
    (sp xp : List String) (push : Bool) (workflow : String) :
    (annotateTemp false
        (buildCmd base wfContent buildFn name version model sp xp push workflow).2).all
      writesInsideTemp = true ∧
    tempAliveAfter
        (buildCmd base wfContent buildFn name version model sp xp push workflow).2
      = false ∧
    (buildCmd base wfContent buildFn name version model sp xp push workflow).2.countP
        isTempCreated = 1 ∧
    (buildCmd base wfContent buildFn name version model sp xp push workflow).2.countP
        isTempRemoved = 1 := by
  cases h : buildFn (buildArgsOf name version sp) <;> cases push <;>
    simp [buildCmd, h, buildCommonTrace, annotateTemp, tempStep, writesInsideTemp,
      tempAliveAfter, isTempCreated, isTempRemoved, List.countP_cons]

/-- C5: for every build invocation, the `requirements.txt` written into the
build directory (the third event of the trace) is the base requirements
first, followed by every `--extra-python-packages` entry, each on its own
new line, in exactly the order supplied; and no write of
`requirements.txt` with any other content ever occurs. -/
theorem build_requirements_order (base wfContent : String)
    (buildFn : BuildArgs → Except String String) (name : String)
    (version : Option String) (model : String)
    (sp xp : List String) (push : Bool) (workflow : String) :
    (buildCmd base wfContent buildFn name version model sp xp push workflow).2[2]? =
      some (Ev.fileWritten "requirements.txt" (base ++ newlineBlock xp)) ∧
    ((buildCmd base wfContent buildFn name version model sp xp push workflow).2.all
        (reqWriteIs (base ++ newlineBlock xp))) = true := by
  cases h : buildFn (buildArgsOf name version sp) <;> cases push <;>
    simp [buildCmd, h, buildCommonTrace, requirementsContent_eq, reqWriteIs]

/-- C6: for every build invocation, the generated `service.py` (the fifth
event of the trace) is the fixed service template with the supplied name
and model tag substituted in, and therefore contains the literal `name`
and `model` option values as substrings. -/
theorem build_service_file_rendered (base wfContent : String)
    (buildFn : BuildArgs → Except String String) (name : String)
    (version : Option String) (model : String)
    (sp xp : List String) (push : Bool) (workflow : String) :
    (buildCmd base wfContent buildFn name version model sp xp push workflow).2[4]? =
      some (Ev.fileWritten "service.py" (serviceTemplateRender name model)) ∧
    hasSubstring name (serviceTemplateRender name model) = true ∧
    hasSubstring model (serviceTemplateRender name model) = true := by
  refine ⟨?_, ?_, ?_⟩
  · cases h : buildFn (buildArgsOf name version sp) <;> cases push <;>
      simp [buildCmd, h, buildCommonTrace]
  · apply hasSubstring_of_parts name (serviceTemplateRender name model)
      svcTplPre.data (svcTplMid.data ++ (model.data ++ svcTplPost.data))
    simp [serviceTemplateRender, String.data_append, List.append_assoc]
  · apply hasSubstring_of_parts model (serviceTemplateRender name model)
      (svcTplPre.data ++ (name.data ++ svcTplMid.data)) svcTplPost.data
    simp [serviceTemplateRender, String.data_append, List.append_assoc]

/-- C7: for every build invocation, the arguments passed to the external
build routine (the only `buildCalled` event of the trace) carry the fixed
default Docker system packages followed by every `--system-packages` value
in order, and exactly `service.py`, `workflow.json` and `requirements.txt`
as build inputs. -/
theorem build_args_passed (base wfContent : String)
    (buildFn : BuildArgs → Except String String) (name : String)
    (version : Option String) (model : String)
    (sp xp : List String) (push : Bool) (workflow : String) :
    (buildCmd base wfContent buildFn name version model sp xp push workflow).2[7]? =
      some (Ev.buildCalled (buildArgsOf name version sp)) ∧
    ((buildCmd base wfContent buildFn name version model sp xp push workflow).2.all
        (buildCallUses (buildArgsOf name version sp))) = true ∧
    (buildArgsOf name version sp).systemPackages =
      defaultSystemPackages ++ sp ∧
    (buildArgsOf name version sp).includeFiles =
      ["service.py", "workflow.json", "requirements.txt"] := by
  refine ⟨?_, ?_, rfl, rfl⟩ <;>
    cases h : buildFn (buildArgsOf name version sp) <;> cases push <;>
      simp [buildCmd, h, buildCommonTrace, buildCallUses]

/-- C10 (counterexample): with `--push` given but the external build
raising, the build command propagates the error and never calls the push
routine — so "push is invoked if and only if `--push` was given" fails as
stated at this input. -/
theorem build_push_flag_counterexample :
    (buildCmd "req" "wf" (fun _ => Except.error "build failed") "n" none "m"
        [] [] true "workflow.json").1 = Except.error "build failed" ∧
    ((buildCmd "req" "wf" (fun _ => Except.error "build failed") "n" none "m"
        [] [] true "workflow.json").2.all notPushCall) = true :=
  ⟨rfl, rfl⟩

/-- C10 (amended): the push routine is invoked if and only if `--push` was
given and the external build succeeded; when invoked, it happens only after
the temporary directory has been removed and the build-success message
printed (the trace ends `…, tempRemoved, printed success, pushCalled,
printed hints`); without `--push` no push call occurs and no deployment
hint is printed (the trace ends at the success message). -/
theorem build_push_semantics (base wfContent : String)
    (buildFn : BuildArgs → Except String String) (name : String)
    (version : Option String) (model : String) (sp xp : List String)
    (workflow : String) :
    (∀ tag, buildFn (buildArgsOf name version sp) = Except.ok tag →
      (buildCmd base wfContent buildFn name version model sp xp true workflow).2 =
        buildCommonTrace base wfContent name version model sp xp ++
          [Ev.tempRemoved, Ev.printed (buildSuccessMsg tag workflow),
           Ev.pushCalled tag, Ev.printed (deployHints tag)] ∧
      (buildCmd base wfContent buildFn name version model sp xp false workflow).2 =
        buildCommonTrace base wfContent name version model sp xp ++
          [Ev.tempRemoved, Ev.printed (buildSuccessMsg tag workflow)]) ∧
    (∀ push tagv, Ev.pushCalled tagv ∈
        (buildCmd base wfContent buildFn name version model sp xp push workflow).2 →
      push = true ∧ buildFn (buildArgsOf name version sp) = Except.ok tagv) ∧
    ((buildCmd base wfContent buildFn name version model sp xp false workflow).2.all
        notPushCall) = true := by
  refine ⟨?_, ?_, ?_⟩
  · intro tag hok
    exact ⟨by simp [buildCmd, hok], by simp [buildCmd, hok]⟩
  · intro push tagv hmem
    cases h : buildFn (buildArgsOf name version sp) with
    | error e =>
        simp [buildCmd, h, buildCommonTrace] at hmem
    | ok tag =>
        cases push
        · simp [buildCmd, h, buildCommonTrace] at hmem
        · simp [buildCmd, h, buildCommonTrace] at hmem
          subst hmem
          exact ⟨rfl, rfl⟩
  · cases h : buildFn (buildArgsOf name version sp) <;>
      simp [buildCmd, h, buildCommonTrace, notPushCall]

/-- Witness for C10 (amended) at a concrete input: build succeeds and
`--push` is given, so the push call and the hint print close the trace. -/
theorem build_push_semantics_witness :
    (buildCmd "b" "w" (fun _ => Except.ok "t") "n" none "m" [] [] true "wf").2 =
      buildCommonTrace "b" "w" "n" none "m" [] [] ++
        [Ev.tempRemoved, Ev.printed (buildSuccessMsg "t" "wf"),
         Ev.pushCalled "t", Ev.printed (deployHints "t")] ∧
    (buildCmd "b" "w" (fun _ => Except.ok "t") "n" none "m" [] [] false "wf").2 =
      buildCommonTrace "b" "w" "n" none "m" [] [] ++
        [Ev.tempRemoved, Ev.printed (buildSuccessMsg "t" "wf")] :=
  (build_push_semantics "b" "w" (fun _ => Except.ok "t") "n" none "m" [] [] "wf").1
    "t" rfl
